import Mathlib

/-!
Shallow embedding of the Polkadot runtime-api subsystem
(node/core/runtime-api/src/lib.rs): the actor loop `run`, the dispatcher
`make_runtime_api_request` (with the per-variant query expansion made an
explicit match), and the `Metrics` outcome recorder.

External value types from polkadot_primitives are not part of this crate;
they are modelled as uninterpreted numeric identifiers. The side effects of
a dispatch (the provider call, the counter update, the reply-channel write)
are reified as an explicit event trace so ordering properties can be stated.
-/

namespace RuntimeApi

/-- Relay-chain block hash: the block reference carried by every request. -/
abbrev Hash := Nat

/-- Parachain identifier (`Id` in polkadot_primitives). -/
abbrev ParaId := Nat

/-- Opaque validator identity. -/
abbrev ValidatorId := Nat

/-- Opaque validator index. -/
abbrev ValidatorIndex := Nat

/-- Opaque per-core occupancy state. -/
abbrev CoreState := Nat

/-- Opaque persisted validation data record. -/
abbrev PersistedValidationData := Nat

/-- Session index value. -/
abbrev SessionIndex := Nat

/-- Opaque validation code blob. -/
abbrev ValidationCode := Nat

/-- Opaque committed candidate receipt. -/
abbrev CommittedCandidateReceipt := Nat

/-- Opaque candidate lifecycle event. -/
abbrev CandidateEvent := Nat

/-- Diagnostic detail of a provider-internal failure (free-form text). -/
abbrev ApiError := String

/-- Error surfaced when receiving from the subsystem mailbox fails. -/
abbrev SubsystemError := String

/-- Group rotation metadata returned together with validator groups. -/
structure GroupRotationInfo where
  session_start_block : Nat
  group_rotation_frequency : Nat
  now : Nat
deriving DecidableEq

/-- Full validation data: the persisted part plus transient data. -/
structure ValidationData where
  persisted : PersistedValidationData
  transient : Nat
deriving DecidableEq

/-- Occupied-core assumption parameter of several queries. -/
inductive OccupiedCoreAssumption
| Included
| TimedOut
| Free
deriving DecidableEq

/-- Block identifier passed to the provider; the dispatcher always uses
the `Hash` form (`BlockId::Hash(relay_parent)`). -/
inductive BlockId
| Hash (h : Hash)
| Number (n : Nat)
deriving DecidableEq

/-- Error kind delivered to the caller: the provider failure formatted as
diagnostic text (`RuntimeApiError::from(format!(..))`). -/
structure RuntimeApiError where
  msg : String
deriving DecidableEq

/-- Conversion of a raw provider failure into the delivered error kind. -/
def RuntimeApiError.fromDebug (e : ApiError) : RuntimeApiError := ⟨e⟩

/-- The write end of a per-request oneshot reply channel. `id` names the
channel; `listening` records whether the caller still holds the read end
(when it does not, a send returns an error that the dispatcher discards). -/
structure Sender where
  id : Nat
  listening : Bool
deriving DecidableEq

/-- The provider capability (`Client` with a `ParachainHost` runtime API):
nine operations, each taking a block id plus the variant parameters and
returning a domain value or a diagnostic failure. -/
structure Client where
  validators : BlockId → Except ApiError (List ValidatorId)
  validator_groups :
    BlockId → Except ApiError (List (List ValidatorIndex) × GroupRotationInfo)
  availability_cores : BlockId → Except ApiError (List CoreState)
  persisted_validation_data :
    BlockId → ParaId → OccupiedCoreAssumption →
      Except ApiError (Option PersistedValidationData)
  full_validation_data :
    BlockId → ParaId → OccupiedCoreAssumption →
      Except ApiError (Option ValidationData)
  session_index_for_child : BlockId → Except ApiError SessionIndex
  validation_code :
    BlockId → ParaId → OccupiedCoreAssumption →
      Except ApiError (Option ValidationCode)
  candidate_pending_availability :
    BlockId → ParaId → Except ApiError (Option CommittedCandidateReceipt)
  candidate_events : BlockId → Except ApiError (List CandidateEvent)

/-- The nine-variant request union (`RuntimeApiRequest`). Each variant
carries its parameters plus the reply channel for its result type. -/
inductive Request
| Validators (sender : Sender)
| ValidatorGroups (sender : Sender)
| AvailabilityCores (sender : Sender)
| PersistedValidationData (para : ParaId) (assumption : OccupiedCoreAssumption)
    (sender : Sender)
| FullValidationData (para : ParaId) (assumption : OccupiedCoreAssumption)
    (sender : Sender)
| SessionIndexForChild (sender : Sender)
| ValidationCode (para : ParaId) (assumption : OccupiedCoreAssumption)
    (sender : Sender)
| CandidatePendingAvailability (para : ParaId) (sender : Sender)
| CandidateEvents (sender : Sender)
deriving DecidableEq

/-- The reply channel carried by a request. -/
def Request.sender : Request → Sender
| .Validators s => s
| .ValidatorGroups s => s
| .AvailabilityCores s => s
| .PersistedValidationData _ _ s => s
| .FullValidationData _ _ s => s
| .SessionIndexForChild s => s
| .ValidationCode _ _ s => s
| .CandidatePendingAvailability _ s => s
| .CandidateEvents s => s

/-- The nine per-variant result shapes merged into one sum, so that the
value written to a reply channel can appear in a single trace type. -/
inductive Answer
| validators (v : List ValidatorId)
| validatorGroups (v : List (List ValidatorIndex) × GroupRotationInfo)
| availabilityCores (v : List CoreState)
| persistedValidationData (v : Option PersistedValidationData)
| fullValidationData (v : Option ValidationData)
| sessionIndexForChild (v : SessionIndex)
| validationCode (v : Option ValidationCode)
| candidatePendingAvailability (v : Option CommittedCandidateReceipt)
| candidateEvents (v : List CandidateEvent)
deriving DecidableEq

/-- Descriptor of one provider invocation: which of the nine operations,
with which block id and parameters. -/
inductive ProviderCall
| validators (blk : BlockId)
| validatorGroups (blk : BlockId)
| availabilityCores (blk : BlockId)
| persistedValidationData (blk : BlockId) (para : ParaId)
    (assumption : OccupiedCoreAssumption)
| fullValidationData (blk : BlockId) (para : ParaId)
    (assumption : OccupiedCoreAssumption)
| sessionIndexForChild (blk : BlockId)
| validationCode (blk : BlockId) (para : ParaId)
    (assumption : OccupiedCoreAssumption)
| candidatePendingAvailability (blk : BlockId) (para : ParaId)
| candidateEvents (blk : BlockId)
deriving DecidableEq

/-- Equality of provider results is decidable when it is on both sides. -/
instance {ε α : Type} [DecidableEq ε] [DecidableEq α] :
    DecidableEq (Except ε α) := fun a b =>
  match a, b with
  | .ok x, .ok y =>
      if h : x = y then .isTrue (by rw [h]) else .isFalse (by simp [h])
  | .ok _, .error _ => .isFalse (by simp)
  | .error _, .ok _ => .isFalse (by simp)
  | .error x, .error y =>
      if h : x = y then .isTrue (by rw [h]) else .isFalse (by simp [h])

/-- One observable side effect of the dispatcher, in program order:
the provider invocation, the counter update (`metrics.on_request`), and
the reply-channel write (`sender.send`; `delivered` is false when the
caller had dropped the read end, in which case the send result is
discarded by `let _ = ..`). -/
inductive Event
| providerCall (call : ProviderCall)
| record (succeeded : Bool)
| channelWrite (chan : Nat) (value : Except RuntimeApiError Answer)
    (delivered : Bool)
deriving DecidableEq

/-- The two labelled counters of `parachain_runtime_api_requests_total`. -/
structure MetricsInner where
  succeeded : Nat
  failed : Nat
deriving DecidableEq

/-- Runtime API metrics: `None` when metrics collection is disabled. -/
structure Metrics where
  inner : Option MetricsInner
deriving DecidableEq

/-- `Metrics::on_request`: increment the counter labelled "succeeded" or
"failed"; a no-op when metrics are disabled. -/
def Metrics.on_request (m : Metrics) (succeeded : Bool) : Metrics :=
  match m.inner with
  | some metrics =>
      if succeeded then ⟨some { metrics with succeeded := metrics.succeeded + 1 }⟩
      else ⟨some { metrics with failed := metrics.failed + 1 }⟩
  | none => m

/-- `Result::is_ok` on a provider result. -/
def is_ok {ε α : Type} : Except ε α → Bool
| .ok _ => true
| .error _ => false

/-- One expansion of the query pattern shared by all nine dispatch arms:
invoke the provider (`res0` is its result for `call`), normalise the error,
record the outcome, then write the classified result into the channel. -/
def query {α : Type} (metrics : Metrics) (call : ProviderCall)
    (res0 : Except ApiError α) (inj : α → Answer) (sender : Sender) :
    Metrics × List Event :=
  let res := res0.mapError RuntimeApiError.fromDebug
  (metrics.on_request (is_ok res),
   [Event.providerCall call, Event.record (is_ok res),
    Event.channelWrite sender.id (res.map inj) sender.listening])

/-- `make_runtime_api_request`: dispatch one request against the provider,
returning the updated metrics and the trace of side effects. -/
def make_runtime_api_request (client : Client) (metrics : Metrics)
    (relay_parent : Hash) (request : Request) : Metrics × List Event :=
  match request with
  | .Validators sender =>
      query metrics (.validators (.Hash relay_parent))
        (client.validators (.Hash relay_parent)) Answer.validators sender
  | .ValidatorGroups sender =>
      query metrics (.validatorGroups (.Hash relay_parent))
        (client.validator_groups (.Hash relay_parent)) Answer.validatorGroups sender
  | .AvailabilityCores sender =>
      query metrics (.availabilityCores (.Hash relay_parent))
        (client.availability_cores (.Hash relay_parent)) Answer.availabilityCores sender
  | .PersistedValidationData para assumption sender =>
      query metrics (.persistedValidationData (.Hash relay_parent) para assumption)
        (client.persisted_validation_data (.Hash relay_parent) para assumption)
        Answer.persistedValidationData sender
  | .FullValidationData para assumption sender =>
      query metrics (.fullValidationData (.Hash relay_parent) para assumption)
        (client.full_validation_data (.Hash relay_parent) para assumption)
        Answer.fullValidationData sender
  | .SessionIndexForChild sender =>
      query metrics (.sessionIndexForChild (.Hash relay_parent))
        (client.session_index_for_child (.Hash relay_parent))
        Answer.sessionIndexForChild sender
  | .ValidationCode para assumption sender =>
      query metrics (.validationCode (.Hash relay_parent) para assumption)
        (client.validation_code (.Hash relay_parent) para assumption)
        Answer.validationCode sender
  | .CandidatePendingAvailability para sender =>
      query metrics (.candidatePendingAvailability (.Hash relay_parent) para)
        (client.candidate_pending_availability (.Hash relay_parent) para)
        Answer.candidatePendingAvailability sender
  | .CandidateEvents sender =>
      query metrics (.candidateEvents (.Hash relay_parent))
        (client.candidate_events (.Hash relay_parent)) Answer.candidateEvents sender

/-- The provider operation a request variant maps to, with the request's
block reference and parameters. -/
def requestCall (relay_parent : Hash) : Request → ProviderCall
| .Validators _ => .validators (.Hash relay_parent)
| .ValidatorGroups _ => .validatorGroups (.Hash relay_parent)
| .AvailabilityCores _ => .availabilityCores (.Hash relay_parent)
| .PersistedValidationData para assumption _ =>
    .persistedValidationData (.Hash relay_parent) para assumption
| .FullValidationData para assumption _ =>
    .fullValidationData (.Hash relay_parent) para assumption
| .SessionIndexForChild _ => .sessionIndexForChild (.Hash relay_parent)
| .ValidationCode para assumption _ =>
    .validationCode (.Hash relay_parent) para assumption
| .CandidatePendingAvailability para _ =>
    .candidatePendingAvailability (.Hash relay_parent) para
| .CandidateEvents _ => .candidateEvents (.Hash relay_parent)

/-- Execute a described provider invocation, merging the typed result into
`Answer`. This is the provider's answer viewed independently of dispatch. -/
def execCall (client : Client) : ProviderCall → Except ApiError Answer
| .validators blk => (client.validators blk).map Answer.validators
| .validatorGroups blk => (client.validator_groups blk).map Answer.validatorGroups
| .availabilityCores blk =>
    (client.availability_cores blk).map Answer.availabilityCores
| .persistedValidationData blk para assumption =>
    (client.persisted_validation_data blk para assumption).map
      Answer.persistedValidationData
| .fullValidationData blk para assumption =>
    (client.full_validation_data blk para assumption).map Answer.fullValidationData
| .sessionIndexForChild blk =>
    (client.session_index_for_child blk).map Answer.sessionIndexForChild
| .validationCode blk para assumption =>
    (client.validation_code blk para assumption).map Answer.validationCode
| .candidatePendingAvailability blk para =>
    (client.candidate_pending_availability blk para).map
      Answer.candidatePendingAvailability
| .candidateEvents blk => (client.candidate_events blk).map Answer.candidateEvents

/-- Control signals delivered over the mailbox (`OverseerSignal`). -/
inductive OverseerSignal
| Conclude
| ActiveLeaves (update : Nat)
| BlockFinalized (h : Hash)
deriving DecidableEq

/-- The subsystem's inbound message kind (`RuntimeApiMessage`). -/
inductive RuntimeApiMessage
| Request (relay_parent : Hash) (request : Request)
deriving DecidableEq

/-- One successfully received mailbox item (`FromOverseer`). -/
inductive FromOverseer
| Signal (signal : OverseerSignal)
| Communication (msg : RuntimeApiMessage)
deriving DecidableEq

/-- One `ctx.recv()` outcome: a mailbox item, or a receive failure. -/
abbrev MailItem := Except SubsystemError FromOverseer

/-- How the actor loop ended (or did not end yet). -/
inductive RunOutcome
| concluded
| recvFailed (e : SubsystemError)
| pending
deriving DecidableEq

/-- The observable result of running the loop on a finite mailbox: final
metrics, the event trace in program order, how the loop ended, and the
mailbox items it never read (`pending` means the finite mailbox ran dry
while the loop was still waiting for the next item). -/
structure RunResult where
  metrics : Metrics
  events : List Event
  outcome : RunOutcome
  leftover : List MailItem
deriving DecidableEq

/-- The actor loop `run`: receive the next mailbox item; exit with `Ok(())`
on `Conclude`; ignore other signals; dispatch requests synchronously; and
propagate a receive failure (`ctx.recv().await?`) without retrying. -/
def run (client : Client) (metrics : Metrics) : List MailItem → RunResult
| [] => ⟨metrics, [], .pending, []⟩
| .error e :: rest => ⟨metrics, [], .recvFailed e, rest⟩
| .ok (.Signal .Conclude) :: rest => ⟨metrics, [], .concluded, rest⟩
| .ok (.Signal (.ActiveLeaves _)) :: rest => run client metrics rest
| .ok (.Signal (.BlockFinalized _)) :: rest => run client metrics rest
| .ok (.Communication (.Request relay_parent request)) :: rest =>
    let step := make_runtime_api_request client metrics relay_parent request
    let r := run client step.1 rest
    ⟨r.metrics, step.2 ++ r.events, r.outcome, r.leftover⟩

/-- Reference sequential processing: dispatch the given requests one after
the other, threading the metrics and concatenating each dispatch's trace. -/
def processSeq (client : Client) (metrics : Metrics) :
    List (Hash × Request) → Metrics × List Event
| [] => (metrics, [])
| (h, r) :: rest =>
    let step := make_runtime_api_request client metrics h r
    let tail := processSeq client step.1 rest
    (tail.1, step.2 ++ tail.2)

/-- The requests a mailbox delivers to the dispatcher, in delivery order:
everything up to the first `Conclude` or receive failure, signals skipped. -/
def deliveredRequests : List MailItem → List (Hash × Request)
| [] => []
| .error _ :: _ => []
| .ok (.Signal .Conclude) :: _ => []
| .ok (.Signal (.ActiveLeaves _)) :: rest => deliveredRequests rest
| .ok (.Signal (.BlockFinalized _)) :: rest => deliveredRequests rest
| .ok (.Communication (.Request h r)) :: rest =>
    (h, r) :: deliveredRequests rest

/-- Replace the `listening` flag of a request's reply channel, leaving the
variant, parameters, and channel identity unchanged. -/
def Request.setListening : Request → Bool → Request
| .Validators s, b => .Validators ⟨s.id, b⟩
| .ValidatorGroups s, b => .ValidatorGroups ⟨s.id, b⟩
| .AvailabilityCores s, b => .AvailabilityCores ⟨s.id, b⟩
| .PersistedValidationData p a s, b => .PersistedValidationData p a ⟨s.id, b⟩
| .FullValidationData p a s, b => .FullValidationData p a ⟨s.id, b⟩
| .SessionIndexForChild s, b => .SessionIndexForChild ⟨s.id, b⟩
| .ValidationCode p a s, b => .ValidationCode p a ⟨s.id, b⟩
| .CandidatePendingAvailability p s, b => .CandidatePendingAvailability p ⟨s.id, b⟩
| .CandidateEvents s, b => .CandidateEvents ⟨s.id, b⟩

/-- Overwrite the delivery flag of channel-write events, leaving every
other event and the written value untouched. -/
def setDelivered (b : Bool) : Event → Event
| .channelWrite chan value _ => .channelWrite chan value b
| e => e

/-- The in-memory provider double of the subsystem's test module
(`MockRuntimeApi`): canned answers backed by association lists, every
operation total and successful; a missing key yields `none`. -/
structure MockRuntimeApi where
  validators : List ValidatorId
  validator_groups : List (List ValidatorIndex)
  availability_cores : List CoreState
  validation_data : List (ParaId × ValidationData)
  session_index_for_child : SessionIndex
  validation_code : List (ParaId × ValidationCode)
  candidate_pending_availability : List (ParaId × CommittedCandidateReceipt)
  candidate_events : List CandidateEvent

/-- The provider capability given by the mock's canned data. -/
def MockRuntimeApi.toClient (m : MockRuntimeApi) : Client where
  validators := fun _ => .ok m.validators
  validator_groups := fun _ =>
    .ok (m.validator_groups, ⟨1, 100, 10⟩)
  availability_cores := fun _ => .ok m.availability_cores
  persisted_validation_data := fun _ para _ =>
    .ok ((m.validation_data.lookup para).map ValidationData.persisted)
  full_validation_data := fun _ para _ => .ok (m.validation_data.lookup para)
  session_index_for_child := fun _ => .ok m.session_index_for_child
  validation_code := fun _ para _ => .ok (m.validation_code.lookup para)
  candidate_pending_availability := fun _ para =>
    .ok (m.candidate_pending_availability.lookup para)
  candidate_events := fun _ => .ok m.candidate_events

/-- A mock with empty backing data except a two-validator set. -/
def mock0 : MockRuntimeApi := ⟨[1, 2], [], [], [], 0, [], [], []⟩

/-- The provider given by `mock0`. -/
def mockClient : Client := mock0.toClient

/-- A second mock sharing `mock0`'s validator set but differing elsewhere. -/
def mock1 : MockRuntimeApi := ⟨[1, 2], [[0]], [3], [], 5, [], [], [9]⟩

/-- The provider given by `mock1`. -/
def clientB : Client := mock1.toClient

/-- A provider whose every operation fails with the same diagnostic. -/
def failingClient (e : ApiError) : Client where
  validators := fun _ => .error e
  validator_groups := fun _ => .error e
  availability_cores := fun _ => .error e
  persisted_validation_data := fun _ _ _ => .error e
  full_validation_data := fun _ _ _ => .error e
  session_index_for_child := fun _ => .error e
  validation_code := fun _ _ _ => .error e
  candidate_pending_availability := fun _ _ => .error e
  candidate_events := fun _ => .error e

/-- The shared query expansion, restated through `Answer`: its counter
update and both trace occurrences of the outcome use the merged result. -/
lemma query_exec {α : Type} (m : Metrics) (call : ProviderCall)
    (res0 : Except ApiError α) (inj : α → Answer) (sender : Sender) :
    query m call res0 inj sender =
      (m.on_request (is_ok ((res0.map inj).mapError RuntimeApiError.fromDebug)),
       [Event.providerCall call,
        Event.record (is_ok ((res0.map inj).mapError RuntimeApiError.fromDebug)),
        Event.channelWrite sender.id
          ((res0.map inj).mapError RuntimeApiError.fromDebug) sender.listening]) := by
  cases res0 <;> rfl

/-- Characterisation of the dispatcher: for every variant it invokes the
matching provider operation once, records the classified outcome, and
writes that classified result into the request's own reply channel. -/
lemma make_runtime_api_request_spec (client : Client) (metrics : Metrics)
    (relay_parent : Hash) (request : Request) :
    make_runtime_api_request client metrics relay_parent request =
      (metrics.on_request (is_ok ((execCall client
          (requestCall relay_parent request)).mapError RuntimeApiError.fromDebug)),
       [Event.providerCall (requestCall relay_parent request),
        Event.record (is_ok ((execCall client
          (requestCall relay_parent request)).mapError RuntimeApiError.fromDebug)),
        Event.channelWrite request.sender.id
          ((execCall client
            (requestCall relay_parent request)).mapError RuntimeApiError.fromDebug)
          request.sender.listening]) := by
  cases request <;>
    simp only [make_runtime_api_request, execCall, requestCall, Request.sender] <;>
    exact query_exec _ _ _ _ _

/-- Claim C1: for every one of the nine request variants, dispatching
against a provider whose matching operation answers with a known value
performs exactly that one provider call (with the request's block
reference and parameters), delivers exactly that value as `Ok` through the
request's reply channel, and increments the "succeeded" counter by one. -/
theorem dispatch_known_value (client : Client) (metrics : Metrics)
    (relay_parent : Hash) (request : Request) (inner : MetricsInner) (v : Answer)
    (hm : metrics = ⟨some inner⟩)
    (hcall : execCall client (requestCall relay_parent request) = .ok v) :
    make_runtime_api_request client metrics relay_parent request =
      (⟨some ⟨inner.succeeded + 1, inner.failed⟩⟩,
       [Event.providerCall (requestCall relay_parent request), Event.record true,
        Event.channelWrite request.sender.id (.ok v) request.sender.listening]) := by
  subst hm
  rw [make_runtime_api_request_spec, hcall]
  rfl

/-- Witness for C1: the `Validators` request against `mockClient` (with
validator list `[1, 2]`) at block `7`, starting from counters `(3, 4)`. -/
theorem dispatch_known_value_witness :
    execCall mockClient (requestCall 7 (.Validators ⟨9, true⟩)) =
      .ok (.validators [1, 2]) ∧
    make_runtime_api_request mockClient ⟨some ⟨3, 4⟩⟩ 7 (.Validators ⟨9, true⟩) =
      (⟨some ⟨4, 4⟩⟩,
       [.providerCall (.validators (.Hash 7)), .record true,
        .channelWrite 9 (.ok (.validators [1, 2])) true]) :=
  ⟨rfl, dispatch_known_value mockClient _ 7 _ ⟨3, 4⟩ (.validators [1, 2]) rfl rfl⟩

/-- Claim C2: when the provider operation signals an internal failure, the
dispatcher captures it as diagnostic text, delivers it as `Err` through the
reply channel, increments only the "failed" counter, and (being a total
function) never propagates the failure out of dispatch. -/
theorem dispatch_provider_failure (client : Client) (metrics : Metrics)
    (relay_parent : Hash) (request : Request) (inner : MetricsInner) (e : ApiError)
    (hm : metrics = ⟨some inner⟩)
    (hcall : execCall client (requestCall relay_parent request) = .error e) :
    make_runtime_api_request client metrics relay_parent request =
      (⟨some ⟨inner.succeeded, inner.failed + 1⟩⟩,
       [Event.providerCall (requestCall relay_parent request), Event.record false,
        Event.channelWrite request.sender.id
          (.error (RuntimeApiError.fromDebug e)) request.sender.listening]) := by
  subst hm
  rw [make_runtime_api_request_spec, hcall]
  rfl

/-- Witness for C2: the `Validators` request against a provider failing
with diagnostic "boom", starting from counters `(3, 4)`. -/
theorem dispatch_provider_failure_witness :
    execCall (failingClient "boom") (requestCall 7 (.Validators ⟨9, true⟩)) =
      .error "boom" ∧
    make_runtime_api_request (failingClient "boom") ⟨some ⟨3, 4⟩⟩ 7
        (.Validators ⟨9, true⟩) =
      (⟨some ⟨3, 5⟩⟩,
       [.providerCall (.validators (.Hash 7)), .record false,
        .channelWrite 9 (.error ⟨"boom"⟩) true]) :=
  ⟨rfl, dispatch_provider_failure (failingClient "boom") _ 7 _ ⟨3, 4⟩ "boom" rfl rfl⟩

/-- Claim C5: every dispatch produces exactly one reply-channel write; the
counter update (`record`) happens before that write, and no write precedes
the record call. The full trace is provider call, then record, then the
single write carrying the classified result. -/
theorem dispatch_record_then_single_write (client : Client) (metrics : Metrics)
    (relay_parent : Hash) (request : Request) :
    ∃ call res,
      (make_runtime_api_request client metrics relay_parent request).2 =
        [Event.providerCall call, Event.record (is_ok res),
         Event.channelWrite request.sender.id res request.sender.listening] :=
  ⟨requestCall relay_parent request,
   (execCall client (requestCall relay_parent request)).mapError
     RuntimeApiError.fromDebug,
   by rw [make_runtime_api_request_spec]⟩

/-- Claim C8: dispatching a request whose reply channel's read side was
dropped behaves exactly as for a listening caller — same provider call,
same counter update, same written value — except that the single write is
flagged undelivered; the failed send is discarded, not treated as error. -/
theorem dispatch_dropped_receiver (client : Client) (metrics : Metrics)
    (relay_parent : Hash) (request : Request) :
    make_runtime_api_request client metrics relay_parent
        (request.setListening false) =
      ((make_runtime_api_request client metrics relay_parent
          (request.setListening true)).1,
       (make_runtime_api_request client metrics relay_parent
          (request.setListening true)).2.map (setDelivered false)) := by
  cases request <;>
    rw [make_runtime_api_request_spec, make_runtime_api_request_spec] <;> rfl

/-- Claim C10: dispatch is deterministic — its entire observable behaviour
is a function of the matching provider operation's answer, the metrics
state, and the request; two providers agreeing on that answer produce
identical results. -/
theorem dispatch_deterministic (c1 c2 : Client) (metrics : Metrics)
    (relay_parent : Hash) (request : Request)
    (h : execCall c1 (requestCall relay_parent request) =
         execCall c2 (requestCall relay_parent request)) :
    make_runtime_api_request c1 metrics relay_parent request =
      make_runtime_api_request c2 metrics relay_parent request := by
  rw [make_runtime_api_request_spec, make_runtime_api_request_spec, h]

/-- Witness for C10: two distinct providers sharing the validator list
answer the `Validators` request identically. -/
theorem dispatch_deterministic_witness :
    execCall mockClient (requestCall 7 (.Validators ⟨9, true⟩)) =
      execCall clientB (requestCall 7 (.Validators ⟨9, true⟩)) ∧
    make_runtime_api_request mockClient ⟨some ⟨0, 0⟩⟩ 7 (.Validators ⟨9, true⟩) =
      make_runtime_api_request clientB ⟨some ⟨0, 0⟩⟩ 7 (.Validators ⟨9, true⟩) :=
  ⟨rfl, dispatch_deterministic mockClient clientB _ 7 _ rfl⟩

/-- Claim C3: for each optional-result variant, querying an entity absent
from the provider's backing data is a success: the reply channel receives
`Ok` of an absent value and the "succeeded" counter — not "failed" —
increments by one. -/
theorem dispatch_absent_entity (mock : MockRuntimeApi) (metrics : Metrics)
    (relay_parent : Hash) (para : ParaId) (assumption : OccupiedCoreAssumption)
    (s : Sender) (inner : MetricsInner)
    (hm : metrics = ⟨some inner⟩)
    (hvd : mock.validation_data.lookup para = none)
    (hvc : mock.validation_code.lookup para = none)
    (hcp : mock.candidate_pending_availability.lookup para = none) :
    make_runtime_api_request mock.toClient metrics relay_parent
        (.PersistedValidationData para assumption s) =
      (⟨some ⟨inner.succeeded + 1, inner.failed⟩⟩,
       [Event.providerCall (.persistedValidationData (.Hash relay_parent) para assumption),
        Event.record true,
        Event.channelWrite s.id (.ok (.persistedValidationData none)) s.listening]) ∧
    make_runtime_api_request mock.toClient metrics relay_parent
        (.FullValidationData para assumption s) =
      (⟨some ⟨inner.succeeded + 1, inner.failed⟩⟩,
       [Event.providerCall (.fullValidationData (.Hash relay_parent) para assumption),
        Event.record true,
        Event.channelWrite s.id (.ok (.fullValidationData none)) s.listening]) ∧
    make_runtime_api_request mock.toClient metrics relay_parent
        (.ValidationCode para assumption s) =
      (⟨some ⟨inner.succeeded + 1, inner.failed⟩⟩,
       [Event.providerCall (.validationCode (.Hash relay_parent) para assumption),
        Event.record true,
        Event.channelWrite s.id (.ok (.validationCode none)) s.listening]) ∧
    make_runtime_api_request mock.toClient metrics relay_parent
        (.CandidatePendingAvailability para s) =
      (⟨some ⟨inner.succeeded + 1, inner.failed⟩⟩,
       [Event.providerCall (.candidatePendingAvailability (.Hash relay_parent) para),
        Event.record true,
        Event.channelWrite s.id (.ok (.candidatePendingAvailability none)) s.listening]) := by
  subst hm
  refine ⟨?_, ?_, ?_, ?_⟩
  · have hc : execCall mock.toClient
        (requestCall relay_parent (.PersistedValidationData para assumption s)) =
        .ok (.persistedValidationData none) := by
      simp [execCall, requestCall, MockRuntimeApi.toClient, hvd, Except.map]
    rw [make_runtime_api_request_spec, hc]
    rfl
  · have hc : execCall mock.toClient
        (requestCall relay_parent (.FullValidationData para assumption s)) =
        .ok (.fullValidationData none) := by
      simp [execCall, requestCall, MockRuntimeApi.toClient, hvd, Except.map]
    rw [make_runtime_api_request_spec, hc]
    rfl
  · have hc : execCall mock.toClient
        (requestCall relay_parent (.ValidationCode para assumption s)) =
        .ok (.validationCode none) := by
      simp [execCall, requestCall, MockRuntimeApi.toClient, hvc, Except.map]
    rw [make_runtime_api_request_spec, hc]
    rfl
  · have hc : execCall mock.toClient
        (requestCall relay_parent (.CandidatePendingAvailability para s)) =
        .ok (.candidatePendingAvailability none) := by
      simp [execCall, requestCall, MockRuntimeApi.toClient, hcp, Except.map]
    rw [make_runtime_api_request_spec, hc]
    rfl

/-- Witness for C3: para `5` is absent from `mock0`'s backing data; all
four optional-result queries answer `Ok(None)` and count as succeeded. -/
theorem dispatch_absent_entity_witness :
    mock0.validation_data.lookup 5 = none ∧
    mock0.validation_code.lookup 5 = none ∧
    mock0.candidate_pending_availability.lookup 5 = none ∧
    (make_runtime_api_request mock0.toClient ⟨some ⟨0, 0⟩⟩ 7
        (.PersistedValidationData 5 .Included ⟨1, true⟩) =
      (⟨some ⟨1, 0⟩⟩,
       [.providerCall (.persistedValidationData (.Hash 7) 5 .Included),
        .record true, .channelWrite 1 (.ok (.persistedValidationData none)) true]) ∧
     make_runtime_api_request mock0.toClient ⟨some ⟨0, 0⟩⟩ 7
        (.FullValidationData 5 .Included ⟨1, true⟩) =
      (⟨some ⟨1, 0⟩⟩,
       [.providerCall (.fullValidationData (.Hash 7) 5 .Included),
        .record true, .channelWrite 1 (.ok (.fullValidationData none)) true]) ∧
     make_runtime_api_request mock0.toClient ⟨some ⟨0, 0⟩⟩ 7
        (.ValidationCode 5 .Included ⟨1, true⟩) =
      (⟨some ⟨1, 0⟩⟩,
       [.providerCall (.validationCode (.Hash 7) 5 .Included),
        .record true, .channelWrite 1 (.ok (.validationCode none)) true]) ∧
     make_runtime_api_request mock0.toClient ⟨some ⟨0, 0⟩⟩ 7
        (.CandidatePendingAvailability 5 ⟨1, true⟩) =
      (⟨some ⟨1, 0⟩⟩,
       [.providerCall (.candidatePendingAvailability (.Hash 7) 5),
        .record true, .channelWrite 1 (.ok (.candidatePendingAvailability none)) true])) :=
  ⟨rfl, rfl, rfl,
   dispatch_absent_entity mock0 _ 7 5 .Included ⟨1, true⟩ ⟨0, 0⟩ rfl rfl rfl rfl⟩

/-- Running the loop on `xs ++ ys` when `xs` alone leaves the loop still
waiting: the loop carries its metrics and trace over into `ys`. -/
lemma run_append_pending (client : Client) (ys : List MailItem) :
    ∀ (xs : List MailItem) (metrics : Metrics),
      (run client metrics xs).outcome = .pending →
      run client metrics (xs ++ ys) =
        ⟨(run client (run client metrics xs).metrics ys).metrics,
         (run client metrics xs).events ++
           (run client (run client metrics xs).metrics ys).events,
         (run client (run client metrics xs).metrics ys).outcome,
         (run client (run client metrics xs).metrics ys).leftover⟩ := by
  intro xs
  induction xs with
  | nil =>
      intro metrics h
      simp [run]
  | cons item rest ih =>
      intro metrics h
      cases item with
      | error e => simp [run] at h
      | ok fo =>
          cases fo with
          | Signal sig =>
              cases sig with
              | Conclude => simp [run] at h
              | ActiveLeaves u =>
                  simpa [run] using ih metrics (by simpa [run] using h)
              | BlockFinalized hh =>
                  simpa [run] using ih metrics (by simpa [run] using h)
          | Communication msg =>
              cases msg with
              | Request rp req =>
                  have h' : (run client
                      (make_runtime_api_request client metrics rp req).1
                      rest).outcome = .pending := by
                    simpa [run] using h
                  simp [run, ih _ h', List.append_assoc]

/-- Claim C4: once the loop receives the conclude signal it exits with the
successful outcome; the items after conclude are exactly the unread
leftover, and the trace contains nothing from them — any request enqueued
after conclude is never dispatched. -/
theorem conclude_stops_loop (client : Client) (metrics : Metrics)
    (pre suf : List MailItem)
    (h : (run client metrics pre).outcome = .pending) :
    run client metrics (pre ++ .ok (.Signal .Conclude) :: suf) =
      ⟨(run client metrics pre).metrics, (run client metrics pre).events,
       .concluded, suf⟩ := by
  rw [run_append_pending client (.ok (.Signal .Conclude) :: suf) pre metrics h]
  simp [run]

/-- Witness for C4: conclude at the head of the mailbox; a request queued
behind it stays unread, with no events and unchanged counters. -/
theorem conclude_stops_loop_witness :
    (run mockClient ⟨some ⟨0, 0⟩⟩ []).outcome = .pending ∧
    run mockClient ⟨some ⟨0, 0⟩⟩
        ([] ++ .ok (.Signal .Conclude) ::
          [.ok (.Communication (.Request 7 (.Validators ⟨9, true⟩)))]) =
      ⟨⟨some ⟨0, 0⟩⟩, [], .concluded,
       [.ok (.Communication (.Request 7 (.Validators ⟨9, true⟩)))]⟩ :=
  ⟨rfl, conclude_stops_loop mockClient _ [] _ rfl⟩

/-- Claim C6: a mailbox-receive failure terminates the loop immediately
with that failure as the loop's result; nothing after it is read or
dispatched, and the receive is not retried. -/
theorem recv_failure_fatal (client : Client) (metrics : Metrics)
    (pre : List MailItem) (e : SubsystemError) (suf : List MailItem)
    (h : (run client metrics pre).outcome = .pending) :
    run client metrics (pre ++ .error e :: suf) =
      ⟨(run client metrics pre).metrics, (run client metrics pre).events,
       .recvFailed e, suf⟩ := by
  rw [run_append_pending client (.error e :: suf) pre metrics h]
  simp [run]

/-- Witness for C6: the bus breaks at the head of the mailbox; the loop
surfaces the failure and the queued request is never dispatched. -/
theorem recv_failure_fatal_witness :
    (run mockClient ⟨some ⟨0, 0⟩⟩ []).outcome = .pending ∧
    run mockClient ⟨some ⟨0, 0⟩⟩
        ([] ++ .error "bus closed" ::
          [.ok (.Communication (.Request 7 (.Validators ⟨9, true⟩)))]) =
      ⟨⟨some ⟨0, 0⟩⟩, [], .recvFailed "bus closed",
       [.ok (.Communication (.Request 7 (.Validators ⟨9, true⟩)))]⟩ :=
  ⟨rfl, recv_failure_fatal mockClient _ [] "bus closed" _ rfl⟩

/-- Claim C7: a non-conclude control signal is ignored: the run over the
signal followed by any rest equals the run over the rest alone — counters
untouched, no events, the loop keeps dispatching subsequent requests. -/
theorem signal_ignored (client : Client) (metrics : Metrics) (u : Nat)
    (h : Hash) (rest : List MailItem) :
    run client metrics (.ok (.Signal (.ActiveLeaves u)) :: rest) =
      run client metrics rest ∧
    run client metrics (.ok (.Signal (.BlockFinalized h)) :: rest) =
      run client metrics rest :=
  ⟨rfl, rfl⟩

/-- Claim C9: the loop's whole observable behaviour equals strictly
sequential dispatch of the delivered requests in mailbox order: each
request's provider call, counter update, and reply write form one
contiguous block of the trace, completed before the next item is read. -/
theorem run_refines_processSeq (client : Client) (metrics : Metrics)
    (items : List MailItem) :
    (run client metrics items).metrics =
      (processSeq client metrics (deliveredRequests items)).1 ∧
    (run client metrics items).events =
      (processSeq client metrics (deliveredRequests items)).2 := by
  induction items generalizing metrics with
  | nil => simp [run, deliveredRequests, processSeq]
  | cons item rest ih =>
      cases item with
      | error e => simp [run, deliveredRequests, processSeq]
      | ok fo =>
          cases fo with
          | Signal sig =>
              cases sig with
              | Conclude => simp [run, deliveredRequests, processSeq]
              | ActiveLeaves u => simpa [run, deliveredRequests] using ih metrics
              | BlockFinalized hh => simpa [run, deliveredRequests] using ih metrics
          | Communication msg =>
              cases msg with
              | Request rp req =>
                  have hr := ih (make_runtime_api_request client metrics rp req).1
                  simp [run, deliveredRequests, processSeq, hr.1, hr.2]

end RuntimeApi
